import Mathlib

/-!
# hadouken: script bindings of the BitTorrent session and of peer snapshots

Verification development over the two headers

* `include/hadouken/scripting/modules/bittorrent/peer_info_wrapper.hpp`
* `include/hadouken/scripting/modules/bittorrent/session_wrapper.hpp`

Part I embeds the two class declarations as data (one record per declared
member function, in header order) and settles the statements that are about
the declared surface.  Part II models the behaviour of the bodies, which live
in translation units that are not part of these headers, from the prose
specification; every definition of Part II says so in its doc comment.
-/

namespace Hadouken

/-! ## Part I: the declarations of the two headers -/

/-- The C++ types that occur in the member declarations of the two headers. -/
inductive CType where
  /-- The C++ type `void`. -/
  | void
  /-- The C++ type `int`. -/
  | int
  /-- The C++ type `void*`. -/
  | voidPtr
  /-- An lvalue reference `T&` to the forward-declared type `T`. -/
  | ref (pointee : String)
  deriving DecidableEq, Repr

/-- The access section (`public:` / `private:`) a member is declared in. -/
inductive Access where
  /-- Declared after `public:`. -/
  | pub
  /-- Declared after `private:`. -/
  | priv
  deriving DecidableEq, Repr

/-- One member function declaration `static <ret> <name>(<params>);`. -/
structure MemberDecl where
  /-- The access section of the declaration. -/
  access : Access
  /-- Whether the declaration carries `static`. -/
  isStatic : Bool
  /-- The declared return type. -/
  ret : CType
  /-- The declared name. -/
  name : String
  /-- The declared parameter types, in order. -/
  params : List CType
  deriving DecidableEq, Repr

/-- A class declaration: its name and its member functions in header order. -/
structure ClassDecl where
  /-- The class name. -/
  name : String
  /-- The member function declarations, in the order of the header. -/
  members : List MemberDecl
  deriving DecidableEq, Repr

/-- The class `peer_info_wrapper` of `peer_info_wrapper.hpp`, lines 17-35. -/
def peer_info_wrapper : ClassDecl :=
  { name := "peer_info_wrapper"
    members :=
      [ { access := .pub, isStatic := true, ret := .void, name := "initialize",
          params := [.voidPtr, .ref "libtorrent::peer_info"] },
        { access := .priv, isStatic := true, ret := .int, name := "finalize",
          params := [.voidPtr] },
        { access := .priv, isStatic := true, ret := .int, name := "get_country",
          params := [.voidPtr] },
        { access := .priv, isStatic := true, ret := .int, name := "get_ip",
          params := [.voidPtr] },
        { access := .priv, isStatic := true, ret := .int, name := "get_port",
          params := [.voidPtr] },
        { access := .priv, isStatic := true, ret := .int, name := "get_connection_type",
          params := [.voidPtr] },
        { access := .priv, isStatic := true, ret := .int, name := "get_client",
          params := [.voidPtr] },
        { access := .priv, isStatic := true, ret := .int, name := "get_progress",
          params := [.voidPtr] },
        { access := .priv, isStatic := true, ret := .int, name := "get_download_rate",
          params := [.voidPtr] },
        { access := .priv, isStatic := true, ret := .int, name := "get_upload_rate",
          params := [.voidPtr] },
        { access := .priv, isStatic := true, ret := .int, name := "get_downloaded_bytes",
          params := [.voidPtr] },
        { access := .priv, isStatic := true, ret := .int, name := "get_uploaded_bytes",
          params := [.voidPtr] } ] }

/-- The class `session_wrapper` of `session_wrapper.hpp`, lines 17-42. -/
def session_wrapper : ClassDecl :=
  { name := "session_wrapper"
    members :=
      [ { access := .pub, isStatic := true, ret := .void, name := "initialize",
          params := [.voidPtr, .ref "libtorrent::session"] },
        { access := .priv, isStatic := true, ret := .int, name := "add_dht_router",
          params := [.voidPtr] },
        { access := .priv, isStatic := true, ret := .int, name := "add_torrent",
          params := [.voidPtr] },
        { access := .priv, isStatic := true, ret := .int, name := "find_torrent",
          params := [.voidPtr] },
        { access := .priv, isStatic := true, ret := .int, name := "get_listen_port",
          params := [.voidPtr] },
        { access := .priv, isStatic := true, ret := .int, name := "get_ssl_listen_port",
          params := [.voidPtr] },
        { access := .priv, isStatic := true, ret := .int, name := "get_alerts",
          params := [.voidPtr] },
        { access := .priv, isStatic := true, ret := .int, name := "get_settings",
          params := [.voidPtr] },
        { access := .priv, isStatic := true, ret := .int, name := "get_status",
          params := [.voidPtr] },
        { access := .priv, isStatic := true, ret := .int, name := "get_torrents",
          params := [.voidPtr] },
        { access := .priv, isStatic := true, ret := .int, name := "is_listening",
          params := [.voidPtr] },
        { access := .priv, isStatic := true, ret := .int, name := "is_paused",
          params := [.voidPtr] },
        { access := .priv, isStatic := true, ret := .int, name := "listen_on",
          params := [.voidPtr] },
        { access := .priv, isStatic := true, ret := .int, name := "load_state",
          params := [.voidPtr] },
        { access := .priv, isStatic := true, ret := .int, name := "pause",
          params := [.voidPtr] },
        { access := .priv, isStatic := true, ret := .int, name := "remove_torrent",
          params := [.voidPtr] },
        { access := .priv, isStatic := true, ret := .int, name := "resume",
          params := [.voidPtr] },
        { access := .priv, isStatic := true, ret := .int, name := "save_state",
          params := [.voidPtr] },
        { access := .priv, isStatic := true, ret := .int, name := "start_dht",
          params := [.voidPtr] },
        { access := .priv, isStatic := true, ret := .int, name := "wait_for_alert",
          params := [.voidPtr] } ] }

/-- The name of the public binder entry point of both classes. -/
def binderName : String := "initialize"

/-- The name under which a class declares its finalizer. -/
def finalizerName : String := "finalize"

/-- The dispatch functions of a class: every declared member function that is
not the public binder entry point.  These are the functions the binder can
hand to the script engine. -/
def ClassDecl.dispatchFunctions (c : ClassDecl) : List MemberDecl :=
  c.members.filter (fun m => m.name != binderName)

/-- The binder entry points of a class: the members named like the binder. -/
def ClassDecl.binders (c : ClassDecl) : List MemberDecl :=
  c.members.filter (fun m => m.name == binderName)

/-- The script-callable operations of a class: its dispatch functions other
than the finalizer, which only the engine's collector invokes. -/
def ClassDecl.operations (c : ClassDecl) : List MemberDecl :=
  c.dispatchFunctions.filter (fun m => m.name != finalizerName)

/-- The names of the script-callable operations, in header order. -/
def ClassDecl.operationNames (c : ClassDecl) : List String :=
  c.operations.map MemberDecl.name

/-- Whether the class declares a finalizer entry point. -/
def ClassDecl.hasFinalizer (c : ClassDecl) : Bool :=
  c.members.any (fun m => m.name == finalizerName)

/-- The shape of a method-table entry: `int f(void* ctx)`. -/
def MemberDecl.hasEntryShape (m : MemberDecl) : Bool :=
  m.ret == CType.int && m.params == [CType.voidPtr]

/-- The shape of a binder: `void f(void* ctx, T& native)` for some `T`. -/
def MemberDecl.hasBinderShape (m : MemberDecl) : Bool :=
  m.ret == CType.void &&
    match m.params with
    | [CType.voidPtr, CType.ref _] => true
    | _ => false

/-- The operations the specification names for the Session Wrapper (section
4.3), in the order the specification lists them. -/
def specSessionOperations : List String :=
  [ "listen_on", "is_listening", "get_listen_port", "get_ssl_listen_port",
    "add_dht_router", "start_dht",
    "pause", "resume", "is_paused",
    "add_torrent", "remove_torrent", "find_torrent", "get_torrents",
    "get_settings", "get_status", "load_state", "save_state",
    "get_alerts", "wait_for_alert" ]

/-- The ten fields of a peer snapshot the specification lists (section 3 and
4.2), in its order, each written the way the getter of that field is named
after `get_`. -/
def specPeerFields : List String :=
  [ "country", "ip", "port", "connection_type", "client", "progress",
    "download_rate", "upload_rate", "downloaded_bytes", "uploaded_bytes" ]

/-- The getter names for a list of fields. -/
def getterNames (fields : List String) : List String :=
  fields.map (fun f => "get_" ++ f)

/-! ## Part II: behaviour of the bodies, modelled from the specification

The headers declare the dispatch functions; their bodies are defined in
translation units outside the headers.  The definitions below follow the
prose specification (sections 3, 4 and 7). -/

/-- Modelled from the spec: the script-level errors of the error taxonomy in
section 7 (the bodies that raise them are not in the headers).  Not-found and
timeout are results there, not errors, so they have no constructor here. -/
inductive ScriptError where
  /-- Section 7 (a): the bound native object is no longer usable. -/
  | invalidReference
  /-- Section 7 (b): wrong argument count, type or range. -/
  | invalidArgument
  /-- Section 4.3: a call made before the session state allows it. -/
  | invalidState
  /-- Section 7 (e): a failure of the native engine, with its reason as text. -/
  | nativeFailure (reason : String)
  deriving DecidableEq, Repr

/-- Modelled from the spec: the record `libtorrent::peer_info`, which the
header only forward declares.  The fields are the ten of section 3 with the
semantic types of section 4.2: an absent or two-letter country, the IP in
string form, the port, the connection-type tag, the client identifier, the
progress fraction (its exact value as a rational), the two rates and the two
cumulative byte counters. -/
structure peer_info where
  /-- Two-letter country code, or absent. -/
  country : Option String
  /-- IP address in string form. -/
  ip : String
  /-- Port number. -/
  port : Nat
  /-- Enumerated connection-type tag. -/
  connection_type : Nat
  /-- Client identifier, possibly empty. -/
  client : String
  /-- Progress fraction. -/
  progress : ℚ
  /-- Download rate in bytes per second. -/
  download_rate : Nat
  /-- Upload rate in bytes per second. -/
  upload_rate : Nat
  /-- Cumulative downloaded bytes. -/
  downloaded_bytes : Nat
  /-- Cumulative uploaded bytes. -/
  uploaded_bytes : Nat
  deriving DecidableEq, Repr

/-- Modelled from the spec: the state the peer snapshot wrapper runs in, which
no header describes.  `native` is the engine's memory, one peer record per
address, which the engine keeps mutating; `objects` is the script context's
table of bound objects, each holding the internal state "reachable only
through the context" (section 4.1): for this snapshot type a copy of the
record, or nothing once the finalizer has released the copy. -/
structure PeerMachine where
  /-- The engine's peer records, by address. -/
  native : Nat → peer_info
  /-- The internal state of the script-visible objects, by object index. -/
  objects : List (Option peer_info)

/-- Modelled from the spec: a later mutation of an original connection record
by the native engine (section 8, first property); the engine's own code is
outside the repository.  It overwrites the record at `addr`. -/
def PeerMachine.mutate (m : PeerMachine) (addr : Nat) (r : peer_info) : PeerMachine :=
  { m with native := fun a => if a = addr then r else m.native a }

/-- Modelled from the spec: any finite run of later mutations by the engine,
applied oldest first. -/
def PeerMachine.mutations (m : PeerMachine) (ws : List (Nat × peer_info)) : PeerMachine :=
  ws.foldl (fun acc w => acc.mutate w.1 w.2) m

/-- Modelled from the spec: the body of `peer_info_wrapper::initialize(ctx, peer)`,
which the header only declares.  Section 4.1 and 4.2: it creates one
script-visible object and stores a copy of the record behind the reference
`peer` as the object's internal state.  The result is the new machine and the
index of the created object. -/
def peer_info_wrapper.initialize (m : PeerMachine) (peer : Nat) : PeerMachine × Nat :=
  ({ m with objects := m.objects ++ [some (m.native peer)] }, m.objects.length)

/-- Modelled from the spec: the body of `peer_info_wrapper::finalize(ctx)`,
which the header only declares.  Section 4.1 (a): it releases the owned copy
of a snapshot object; a second invocation finds nothing left to release. -/
def peer_info_wrapper.finalize (m : PeerMachine) (this : Nat) : PeerMachine :=
  { m with objects := m.objects.set this none }

/-- Modelled from the spec: how a dispatch function retrieves "this object's"
bound state from the context (section 4.1 (b)) and validates it before use
(section 4.1, error policy): a missing or released state is an
invalid-reference error. -/
def peer_info_wrapper.bound (m : PeerMachine) (this : Nat) : Except ScriptError peer_info :=
  match m.objects[this]? with
  | some (some p) => .ok p
  | _ => .error .invalidReference

/-- Modelled from the spec: the body of `peer_info_wrapper::get_country`, a
direct field projection of the bound snapshot (section 4.2). -/
def peer_info_wrapper.get_country (m : PeerMachine) (this : Nat) :
    Except ScriptError (Option String) :=
  ( peer_info_wrapper.bound m this).map peer_info.country

/-- Modelled from the spec: the body of `peer_info_wrapper::get_ip`, a direct
field projection of the bound snapshot (section 4.2). -/
def peer_info_wrapper.get_ip (m : PeerMachine) (this : Nat) : Except ScriptError String :=
  ( peer_info_wrapper.bound m this).map peer_info.ip

/-- Modelled from the spec: the body of `peer_info_wrapper::get_port`, a direct
field projection of the bound snapshot (section 4.2). -/
def peer_info_wrapper.get_port (m : PeerMachine) (this : Nat) : Except ScriptError Nat :=
  ( peer_info_wrapper.bound m this).map peer_info.port

/-- Modelled from the spec: the body of `peer_info_wrapper::get_connection_type`,
a direct field projection of the bound snapshot (section 4.2). -/
def peer_info_wrapper.get_connection_type (m : PeerMachine) (this : Nat) :
    Except ScriptError Nat :=
  ( peer_info_wrapper.bound m this).map peer_info.connection_type

/-- Modelled from the spec: the body of `peer_info_wrapper::get_client`, a
direct field projection of the bound snapshot (section 4.2). -/
def peer_info_wrapper.get_client (m : PeerMachine) (this : Nat) : Except ScriptError String :=
  ( peer_info_wrapper.bound m this).map peer_info.client

/-- Modelled from the spec: the body of `peer_info_wrapper::get_progress`, a
direct field projection of the bound snapshot (section 4.2). -/
def peer_info_wrapper.get_progress (m : PeerMachine) (this : Nat) : Except ScriptError ℚ :=
  ( peer_info_wrapper.bound m this).map peer_info.progress

/-- Modelled from the spec: the body of `peer_info_wrapper::get_download_rate`,
a direct field projection of the bound snapshot (section 4.2). -/
def peer_info_wrapper.get_download_rate (m : PeerMachine) (this : Nat) :
    Except ScriptError Nat :=
  ( peer_info_wrapper.bound m this).map peer_info.download_rate

/-- Modelled from the spec: the body of `peer_info_wrapper::get_upload_rate`, a
direct field projection of the bound snapshot (section 4.2). -/
def peer_info_wrapper.get_upload_rate (m : PeerMachine) (this : Nat) :
    Except ScriptError Nat :=
  ( peer_info_wrapper.bound m this).map peer_info.upload_rate

/-- Modelled from the spec: the body of `peer_info_wrapper::get_downloaded_bytes`,
a direct field projection of the bound snapshot (section 4.2). -/
def peer_info_wrapper.get_downloaded_bytes (m : PeerMachine) (this : Nat) :
    Except ScriptError Nat :=
  ( peer_info_wrapper.bound m this).map peer_info.downloaded_bytes

/-- Modelled from the spec: the body of `peer_info_wrapper::get_uploaded_bytes`,
a direct field projection of the bound snapshot (section 4.2). -/
def peer_info_wrapper.get_uploaded_bytes (m : PeerMachine) (this : Nat) :
    Except ScriptError Nat :=
  ( peer_info_wrapper.bound m this).map peer_info.uploaded_bytes

/-- Modelled from the spec: an alert, "an asynchronous event record emitted by
the native engine" (glossary); only its text is kept. -/
structure alert where
  /-- The event as text. -/
  message : String
  deriving DecidableEq, Repr

/-- Modelled from the spec: the part of `libtorrent::session`, which the
header only forward declares, that the lifecycle, lookup and alert operations
of section 4.3 read and write.  The session is `Uninitialized` while
`listen_port` is absent and `Listening` or later once `listen_on` has set it;
`paused` tells `Paused` from `Running`.  `Shutdown` is not a value: the session
object is destroyed then and no dispatch function can be called on it
(section 3, Session Handle). -/
structure session where
  /-- The port the session listens on, absent before `listen_on`. -/
  listen_port : Option Nat
  /-- Whether all transfer activity is suspended. -/
  paused : Bool
  /-- The identifiers of the tracked torrents. -/
  torrents : List String
  /-- The queued alerts, oldest first. -/
  alerts : List alert
  deriving DecidableEq, Repr

/-- Modelled from the spec: the body of `session_wrapper::pause`, which the
header only declares.  Section 4.3: session-wide suspend of all transfer
activity; pausing an already-paused session is a no-op, not an error. -/
def session_wrapper.pause (s : session) : Except ScriptError (Unit × session) :=
  .ok ((), { s with paused := true })

/-- Modelled from the spec: the body of `session_wrapper::resume`, which the
header only declares.  Section 4.3: session-wide resume of all transfer
activity. -/
def session_wrapper.resume (s : session) : Except ScriptError (Unit × session) :=
  .ok ((), { s with paused := false })

/-- Modelled from the spec: the body of `session_wrapper::is_paused`, which the
header only declares.  It reports whether the session is suspended and
changes nothing. -/
def session_wrapper.is_paused (s : session) : Except ScriptError (Bool × session) :=
  .ok (s.paused, s)

/-- Modelled from the spec: the body of `session_wrapper::get_alerts`, which
the header only declares.  Section 4.3: it "drains and returns the currently
queued alert records as a finite sequence, non-blocking, leaving the queue
empty after the call". -/
def session_wrapper.get_alerts (s : session) : Except ScriptError (List alert × session) :=
  .ok (s.alerts, { s with alerts := [] })

/-! ### Theorems about the declarations -/

/-- C1: the operations declared by `session_wrapper` are exactly the operations
the specification names for the Session Wrapper: each named operation is
declared, each declared operation is named, no operation is declared twice,
and there are 19 of them. -/
theorem session_wrapper_operations_exact :
    specSessionOperations.all (fun n => session_wrapper.operationNames.contains n) = true ∧
    session_wrapper.operationNames.all (fun n => specSessionOperations.contains n) = true ∧
    session_wrapper.operationNames.Nodup ∧
    session_wrapper.operationNames.length = 19 ∧
    session_wrapper.operations = session_wrapper.dispatchFunctions := by
  refine ⟨by decide, by decide, by decide, by decide, by decide⟩

/-- C2: the peer snapshot wrapper declares exactly ten script-callable
operations besides its finalizer, and they are, in order, the getters of
country, IP, port, connection type, client, progress, download rate, upload
rate, downloaded bytes and uploaded bytes; the only other dispatch function is
the finalizer, so no mutation operation is declared. -/
theorem peer_info_wrapper_ten_getters :
    peer_info_wrapper.operationNames = getterNames specPeerFields ∧
    peer_info_wrapper.operationNames.length = 10 ∧
    peer_info_wrapper.operationNames.Nodup ∧
    peer_info_wrapper.dispatchFunctions.map MemberDecl.name =
      finalizerName :: getterNames specPeerFields := by
  refine ⟨by decide, by decide, by decide, by decide⟩

/-- C3, as stated: both wrappers declare a finalizer entry point.  This fails:
`session_wrapper` declares none. -/
theorem both_wrappers_have_finalizer_fails :
    [peer_info_wrapper, session_wrapper].all ClassDecl.hasFinalizer = false ∧
    session_wrapper.hasFinalizer = false := by
  refine ⟨by decide, by decide⟩

/-- C3, amended: `peer_info_wrapper` declares a finalizer entry point, of the
method-table shape, next to its ten accessors; `session_wrapper` declares no
finalizer: each of its dispatch functions is one of the 19 session operations
and none of them is named like a finalizer. -/
theorem finalizer_only_on_peer_info_wrapper :
    peer_info_wrapper.hasFinalizer = true ∧
    (peer_info_wrapper.dispatchFunctions.filter
        (fun m => m.name == finalizerName)).map MemberDecl.hasEntryShape = [true] ∧
    peer_info_wrapper.operations.length = 10 ∧
    session_wrapper.hasFinalizer = false ∧
    (session_wrapper.dispatchFunctions.map MemberDecl.name).all
        (fun n => specSessionOperations.contains n && n != finalizerName) = true ∧
    session_wrapper.dispatchFunctions.length = 19 := by
  refine ⟨by decide, by decide, by decide, by decide, by decide, by decide⟩

/-- C10: every dispatch function of both wrappers (the 19 session operations,
the 10 peer accessors and the peer finalizer) is a static function taking
exactly one `void*` call context and returning `int`; each class has one
binder, which takes the context plus a native reference and returns nothing;
and among all declared members exactly the binders differ from the
method-table shape. -/
theorem dispatch_functions_uniform_shape :
    (session_wrapper.dispatchFunctions ++ peer_info_wrapper.dispatchFunctions).all
        (fun m => m.hasEntryShape && m.isStatic) = true ∧
    session_wrapper.dispatchFunctions.length = 19 ∧
    peer_info_wrapper.operations.length = 10 ∧
    peer_info_wrapper.dispatchFunctions.length = 10 + 1 ∧
    (session_wrapper.binders ++ peer_info_wrapper.binders).all
        (fun m => m.hasBinderShape && !m.hasEntryShape) = true ∧
    session_wrapper.binders.length = 1 ∧
    peer_info_wrapper.binders.length = 1 ∧
    (session_wrapper.members ++ peer_info_wrapper.members).all
        (fun m => m.hasEntryShape == (m.name != binderName)) = true := by
  refine ⟨by decide, by decide, by decide, by decide, by decide, by decide, by decide,
    by decide⟩

/-! ### Theorems about the modelled behaviour -/

/-- A mutation of the engine's records leaves the script objects untouched. -/
theorem PeerMachine.mutate_objects (m : PeerMachine) (addr : Nat) (r : peer_info) :
    (m.mutate addr r).objects = m.objects := rfl

/-- A run of mutations of the engine's records leaves the script objects
untouched. -/
theorem PeerMachine.mutations_objects (ws : List (Nat × peer_info)) (m : PeerMachine) :
    (m.mutations ws).objects = m.objects := by
  induction ws generalizing m with
  | nil => rfl
  | cons w ws ih =>
    show ((m.mutate w.1 w.2).mutations ws).objects = m.objects
    rw [ih, PeerMachine.mutate_objects]

/-- After binding and any run of later mutations, the state bound to the new
object is still the record as it was at bind time. -/
theorem peer_info_wrapper.bound_after_mutations (m : PeerMachine) (peer : Nat)
    (later : List (Nat × peer_info)) :
    peer_info_wrapper.bound (( peer_info_wrapper.initialize m peer).1.mutations later)
      ( peer_info_wrapper.initialize m peer).2 = .ok (m.native peer) := by
  unfold peer_info_wrapper.bound
  rw [PeerMachine.mutations_objects]
  simp [ peer_info_wrapper.initialize]

/-- Running the finalizer twice is the same as running it once. -/
theorem peer_info_wrapper.finalize_idempotent (m : PeerMachine) (this : Nat) :
    peer_info_wrapper.finalize ( peer_info_wrapper.finalize m this) this =
      peer_info_wrapper.finalize m this := by
  simp [peer_info_wrapper.finalize]

/-- Once the finalizer has released an object's copy, retrieving its bound
state is an invalid-reference error. -/
theorem peer_info_wrapper.bound_after_finalize (m : PeerMachine) (this : Nat) :
    peer_info_wrapper.bound ( peer_info_wrapper.finalize m this) this =
      .error .invalidReference := by
  unfold peer_info_wrapper.bound peer_info_wrapper.finalize
  by_cases h : this < m.objects.length
  · simp [List.getElem?_set, h]
  · simp [List.getElem?_set, h]

/-- C4: for every machine state, every peer record reference `peer` and every
run `later` of mutations the engine applies to its records after the bind,
each of the ten accessors, called on the object that `initialize` created,
returns the value the corresponding field of the record had at bind time. -/
theorem peer_snapshot_accessors_frozen (m : PeerMachine) (peer : Nat)
    (later : List (Nat × peer_info)) :
    peer_info_wrapper.get_country (( peer_info_wrapper.initialize m peer).1.mutations later)
        ( peer_info_wrapper.initialize m peer).2 = .ok (m.native peer).country ∧
    peer_info_wrapper.get_ip (( peer_info_wrapper.initialize m peer).1.mutations later)
        ( peer_info_wrapper.initialize m peer).2 = .ok (m.native peer).ip ∧
    peer_info_wrapper.get_port (( peer_info_wrapper.initialize m peer).1.mutations later)
        ( peer_info_wrapper.initialize m peer).2 = .ok (m.native peer).port ∧
    peer_info_wrapper.get_connection_type
        (( peer_info_wrapper.initialize m peer).1.mutations later)
        ( peer_info_wrapper.initialize m peer).2 = .ok (m.native peer).connection_type ∧
    peer_info_wrapper.get_client (( peer_info_wrapper.initialize m peer).1.mutations later)
        ( peer_info_wrapper.initialize m peer).2 = .ok (m.native peer).client ∧
    peer_info_wrapper.get_progress (( peer_info_wrapper.initialize m peer).1.mutations later)
        ( peer_info_wrapper.initialize m peer).2 = .ok (m.native peer).progress ∧
    peer_info_wrapper.get_download_rate
        (( peer_info_wrapper.initialize m peer).1.mutations later)
        ( peer_info_wrapper.initialize m peer).2 = .ok (m.native peer).download_rate ∧
    peer_info_wrapper.get_upload_rate
        (( peer_info_wrapper.initialize m peer).1.mutations later)
        ( peer_info_wrapper.initialize m peer).2 = .ok (m.native peer).upload_rate ∧
    peer_info_wrapper.get_downloaded_bytes
        (( peer_info_wrapper.initialize m peer).1.mutations later)
        ( peer_info_wrapper.initialize m peer).2 = .ok (m.native peer).downloaded_bytes ∧
    peer_info_wrapper.get_uploaded_bytes
        (( peer_info_wrapper.initialize m peer).1.mutations later)
        ( peer_info_wrapper.initialize m peer).2 = .ok (m.native peer).uploaded_bytes := by
  have h := peer_info_wrapper.bound_after_mutations m peer later
  simp only [peer_info_wrapper.get_country, peer_info_wrapper.get_ip,
    peer_info_wrapper.get_port, peer_info_wrapper.get_connection_type,
    peer_info_wrapper.get_client, peer_info_wrapper.get_progress,
    peer_info_wrapper.get_download_rate, peer_info_wrapper.get_upload_rate,
    peer_info_wrapper.get_downloaded_bytes, peer_info_wrapper.get_uploaded_bytes, h]
  exact ⟨rfl, rfl, rfl, rfl, rfl, rfl, rfl, rfl, rfl, rfl⟩

/-- C7: for every session state, `pause` succeeds and sets the paused flag; a
second `pause` also succeeds and changes nothing; `is_paused` after the two
pauses answers true; and `is_paused` after `pause` then `resume` answers
false. -/
theorem pause_idempotent_resume_unpauses (s : session) :
    session_wrapper.pause s = .ok ((), { s with paused := true }) ∧
    (do let r1 ← session_wrapper.pause s
        session_wrapper.pause r1.2) = session_wrapper.pause s ∧
    (do let r1 ← session_wrapper.pause s
        let r2 ← session_wrapper.pause r1.2
        session_wrapper.is_paused r2.2) = .ok (true, { s with paused := true }) ∧
    (do let r1 ← session_wrapper.pause s
        let r2 ← session_wrapper.resume r1.2
        session_wrapper.is_paused r2.2) = .ok (false, { s with paused := false }) :=
  ⟨rfl, rfl, rfl, rfl⟩

/-- C8: for every session state, `get_alerts` returns the queued alerts in
order and leaves the queue empty, and a second `get_alerts` right after it
returns the empty sequence and again leaves the queue empty. -/
theorem get_alerts_drains (s : session) :
    session_wrapper.get_alerts s = .ok (s.alerts, { s with alerts := [] }) ∧
    (do let r1 ← session_wrapper.get_alerts s
        session_wrapper.get_alerts r1.2) = .ok ([], { s with alerts := [] }) :=
  ⟨rfl, rfl⟩

end Hadouken
